import Mathlib

/-!
Verification of `psiphon/server/discovery.go`: the `Discovery` orchestrator
(`newDiscovery`, `Discovery.reload`, `Discovery.DiscoverServers`).

The Go code is shallowly embedded as pure Lean functions.  Effects of the
external collaborators (the tactics-parameters cache, the strategy
constructors `NewConsistentHashingDiscovery` / `NewClassicDiscovery`, and
`discovery.NewDiscovery`) are passed in as an explicit environment of
outcomes, so `reload` itself is the exact control flow of the Go function.
Lock acquisition, cancellation calls and the field swap are recorded as an
event trace so that ordering properties can be stated.
-/

namespace PsiphonDiscovery

/-- `DISCOVERY_STRATEGY_CLASSIC` from discovery.go. -/
def DISCOVERY_STRATEGY_CLASSIC : String := "classic"

/-- `DISCOVERY_STRATEGY_CONSISTENT` from discovery.go. -/
def DISCOVERY_STRATEGY_CONSISTENT : String := "consistent"

/-- The mutable fields of the Go `Discovery` struct that `reload` and
`DiscoverServers` touch.  The underlying `*discovery.Discovery` component and
the `context.CancelFunc` are modelled by identities (`Nat`); `none` models a
nil pointer / nil func. -/
structure DiscoveryState where
  currentStrategy : String
  discovery : Option Nat
  cancelFunc : Option Nat
  deriving DecidableEq, Repr

/-- Events emitted by one `reload` call, in program order. -/
inductive ReloadEvent where
  /-- `d.Lock()` -/
  | lockAcquire : ReloadEvent
  /-- `d.cancelFunc()` on the stored (previous) handle -/
  | cancelPrev : Nat → ReloadEvent
  /-- `cancelFunc()` on the freshly created handle (NewDiscovery failure path) -/
  | cancelNew : Nat → ReloadEvent
  /-- the three field assignments `d.discovery = ...; d.cancelFunc = ...; d.currentStrategy = ...` -/
  | fieldsWrite : ReloadEvent
  /-- `d.Unlock()` -/
  | lockRelease : ReloadEvent
  deriving DecidableEq, Repr

/-- How a `reload` call ends: normal `nil` return, an error return, or a
nil-pointer dereference of `d.support.discovery` (a Go runtime panic). -/
inductive ReloadOutcome where
  | ok : ReloadOutcome
  | err : String → ReloadOutcome
  | nilDeref : ReloadOutcome
  deriving DecidableEq, Repr

/-- Result of one `reload` call: its outcome, the resulting receiver state,
and the trace of lock/cancel/write events. -/
structure ReloadResult where
  outcome : ReloadOutcome
  state : DiscoveryState
  events : List ReloadEvent
  deriving DecidableEq, Repr

/-- Outcomes of the external collaborators consulted during one `reload`
call.  `tacticsFetch`: result of `d.support.ServerTacticsParametersCache.Get`
(`Except.error` = fetch error; `Except.ok none` = `p.IsNil()`;
`Except.ok (some s)` = parameters whose `ServerDiscoveryStrategy` string is
`s`).  `supportDiscoveryStrategy`: the `currentStrategy` field reachable via
`d.support.discovery` (`none` = that pointer is nil).  `consistentCtorOk` /
`classicCtorOk`: whether `NewConsistentHashingDiscovery` /
`NewClassicDiscovery` succeed.  `newDiscoveryResult`: result of
`discovery.NewDiscovery`, carrying the identity of the freshly built
component.  `freshCancel`: identity of the `context.CancelFunc` returned by
`context.WithCancel`. -/
structure ReloadEnv where
  tacticsFetch : Except Unit (Option String)
  supportDiscoveryStrategy : Option String
  consistentCtorOk : Bool
  classicCtorOk : Bool
  newDiscoveryResult : Except Unit Nat
  freshCancel : Nat
  deriving Repr

/-- Lines 74-81 of discovery.go:
`strategy := ""` ; `if !p.IsNil() { strategy = p.String(...) }` ;
`if strategy == "" { strategy = DISCOVERY_STRATEGY_CLASSIC }`. -/
def computeStrategy (tp : Option String) : String :=
  let strategy := tp.getD ""
  if strategy = "" then DISCOVERY_STRATEGY_CLASSIC else strategy

/-- Lines 132-134 of discovery.go: `if d.cancelFunc != nil then call it`,
as a trace fragment. -/
def cancelTrace : Option Nat → List ReloadEvent
  | some h => [ReloadEvent.cancelPrev h]
  | none => []

/-- Lines 109-145 of discovery.go: create the cancelable context, call
`discovery.NewDiscovery`, and on success take the write lock, cancel the
previous handle if present, swap in the new component, handle and strategy
name, and unlock. -/
def reloadInstall (st : DiscoveryState) (env : ReloadEnv) (strategy : String) :
    ReloadResult :=
  match env.newDiscoveryResult with
  | .error _ => ⟨.err "NewDiscovery", st, [ReloadEvent.cancelNew env.freshCancel]⟩
  | .ok comp =>
    { outcome := .ok
      state :=
        { currentStrategy := strategy
          discovery := some comp
          cancelFunc := some env.freshCancel }
      events :=
        [ReloadEvent.lockAcquire] ++ cancelTrace st.cancelFunc ++
          [ReloadEvent.fieldsWrite, ReloadEvent.lockRelease] }

/-- Lines 89-107 of discovery.go: dispatch on the strategy name, building the
matching `DiscoveryStrategy` or failing (`unknown strategy` for an
unrecognized name), then proceed to installation. -/
def reloadConstruct (st : DiscoveryState) (env : ReloadEnv) (strategy : String) :
    ReloadResult :=
  if strategy = DISCOVERY_STRATEGY_CONSISTENT then
    if env.consistentCtorOk then reloadInstall st env strategy
    else ⟨.err "NewConsistentHashingDiscovery", st, []⟩
  else if strategy = DISCOVERY_STRATEGY_CLASSIC then
    if env.classicCtorOk then reloadInstall st env strategy
    else ⟨.err "NewClassicDiscovery", st, []⟩
  else ⟨.err ("unknown strategy " ++ strategy), st, []⟩

/-- `Discovery.reload` (lines 65-146 of discovery.go).  `reloadedTactics` is
the Go parameter of the same name.  The short-circuit test on line 85 reads
`d.support.discovery.currentStrategy`; when `d.support.discovery` is nil that
dereference panics (`ReloadOutcome.nilDeref`).  Go's `&&` short-circuits, so
the dereference happens only when `reloadedTactics` is true. -/
def reload (st : DiscoveryState) (env : ReloadEnv) (reloadedTactics : Bool) :
    ReloadResult :=
  match env.tacticsFetch with
  | .error _ => ⟨.err "ServerTacticsParametersCache.Get", st, []⟩
  | .ok tp =>
    let strategy := computeStrategy tp
    if reloadedTactics then
      match env.supportDiscoveryStrategy with
      | none => ⟨.nilDeref, st, []⟩
      | some s =>
        if s = strategy then ⟨.ok, st, []⟩
        else reloadConstruct st env strategy
    else reloadConstruct st env strategy

/-- `newDiscovery` (lines 48-60 of discovery.go): start from the zero-valued
struct (only `support` set) and run `reload(false)`; on error return nil plus
the error, on success return the initialized `Discovery`. -/
def newDiscovery (env : ReloadEnv) : Option DiscoveryState :=
  match reload ⟨"", none, none⟩ env false with
  | ⟨.ok, st, _⟩ => some st
  | _ => none

/-- A server entry as seen by `DiscoverServers`: only its
`EncodedServerEntry` field is used. -/
structure ServerEntry where
  EncodedServerEntry : String
  deriving DecidableEq, Repr

/-- The loop body of `Discovery.DiscoverServers` (lines 156-164):
`servers := d.discovery.SelectServers(clientIP)`, then
`encodedServerEntries := make([]string, 0)` followed by an append loop over
`servers`.  `select` stands for the active component's `SelectServers`. -/
def DiscoverServers (select : Nat → List ServerEntry) (clientIP : Nat) :
    List String :=
  let servers := select clientIP
  servers.foldl (fun acc s => acc ++ [s.EncodedServerEntry]) []

/-- `Discovery.DiscoverServers` with the receiver state threaded through
explicitly (lines 151-165).  `beh` maps a component identity to its
`SelectServers` behaviour.  The body takes the read lock, reads
`d.discovery`, and never assigns any field, so the state is returned
unchanged; dereferencing a nil `d.discovery` is modelled as `none`. -/
def DiscoverServersRun (st : DiscoveryState) (beh : Nat → Nat → List ServerEntry)
    (clientIP : Nat) : Option (List String) × DiscoveryState :=
  match st.discovery with
  | none => (none, st)
  | some c => (some (DiscoverServers (beh c) clientIP), st)

/-- `true` iff some `cancelPrev` event occurs strictly between a
`lockAcquire` and the matching `lockRelease` of the trace.  The boolean
argument is the "currently holding the write lock" flag. -/
def cancelPrevWhileLockedAux : List ReloadEvent → Bool → Bool
  | [], _ => false
  | ReloadEvent.lockAcquire :: rest, _ => cancelPrevWhileLockedAux rest true
  | ReloadEvent.lockRelease :: rest, _ => cancelPrevWhileLockedAux rest false
  | ReloadEvent.cancelPrev _ :: rest, locked =>
      locked || cancelPrevWhileLockedAux rest locked
  | _ :: rest, locked => cancelPrevWhileLockedAux rest locked

/-- `true` iff the trace cancels the previous handle while the write lock is
held. -/
def cancelPrevWhileLocked (evs : List ReloadEvent) : Bool :=
  cancelPrevWhileLockedAux evs false

/-- Number of invocations of the previous instance's cancellation handle in
a trace. -/
def countCancelPrev (evs : List ReloadEvent) : Nat :=
  evs.countP fun e =>
    match e with
    | ReloadEvent.cancelPrev _ => true
    | _ => false

/-- The three reader-visible fields of the state, as a flat triple. -/
def stateTriple (s : DiscoveryState) : Option Nat × Option Nat × String :=
  (s.discovery, s.cancelFunc, s.currentStrategy)

/-- Value a reader sees at time `t` for a field whose (lock-protected) write
happens at time `tw`: the pre-reload value before the write, the post-reload
value from the write on. -/
def observedField {α : Type} (pre post : α) (tw t : Nat) : α :=
  if t < tw then pre else post

/-- What a concurrent `DiscoverServers`-style reader observes: each of the
three fields is read at its own time (`t1`,`t2`,`t3`), each field having been
rewritten by the reload at its own time (`twD`,`twC`,`twS`). -/
def readerTriple (pre post : DiscoveryState) (twD twC twS t1 t2 t3 : Nat) :
    Option Nat × Option Nat × String :=
  (observedField pre.discovery post.discovery twD t1,
   observedField pre.cancelFunc post.cancelFunc twC t2,
   observedField pre.currentStrategy post.currentStrategy twS t3)

/-! ## Structural lemmas -/

lemma foldl_append_encoded (l : List ServerEntry) (acc : List String) :
    l.foldl (fun a s => a ++ [s.EncodedServerEntry]) acc
      = acc ++ l.map (fun s => s.EncodedServerEntry) := by
  induction l generalizing acc with
  | nil => simp
  | cons x xs ih => simp [List.foldl, ih]

/-- The full installation trace produced by a non-short-circuited successful
reload. -/
def installEvents (prevCancel : Option Nat) : List ReloadEvent :=
  [ReloadEvent.lockAcquire] ++ cancelTrace prevCancel ++
    [ReloadEvent.fieldsWrite, ReloadEvent.lockRelease]

lemma reloadInstall_cases (st : DiscoveryState) (env : ReloadEnv)
    (strategy : String) :
    (env.newDiscoveryResult = .error () ∧
      reloadInstall st env strategy =
        ⟨.err "NewDiscovery", st, [ReloadEvent.cancelNew env.freshCancel]⟩) ∨
    (∃ c, env.newDiscoveryResult = .ok c ∧
      reloadInstall st env strategy =
        ⟨.ok, ⟨strategy, some c, some env.freshCancel⟩,
          installEvents st.cancelFunc⟩) := by
  unfold reloadInstall installEvents
  cases h : env.newDiscoveryResult with
  | error u => cases u; exact Or.inl ⟨rfl, rfl⟩
  | ok c => exact Or.inr ⟨c, rfl, rfl⟩

lemma reloadConstruct_cases (st : DiscoveryState) (env : ReloadEnv)
    (strategy : String) :
    (∃ e, reloadConstruct st env strategy = ⟨.err e, st, []⟩) ∨
    (reloadConstruct st env strategy =
      ⟨.err "NewDiscovery", st, [ReloadEvent.cancelNew env.freshCancel]⟩) ∨
    (∃ c, env.newDiscoveryResult = .ok c ∧
      reloadConstruct st env strategy =
        ⟨.ok, ⟨strategy, some c, some env.freshCancel⟩,
          installEvents st.cancelFunc⟩) := by
  unfold reloadConstruct
  by_cases h1 : strategy = DISCOVERY_STRATEGY_CONSISTENT
  · rw [if_pos h1]
    by_cases h2 : env.consistentCtorOk = true
    · rw [if_pos h2]
      rcases reloadInstall_cases st env strategy with ⟨_, h⟩ | ⟨c, hc, h⟩
      · exact Or.inr (Or.inl h)
      · exact Or.inr (Or.inr ⟨c, hc, h⟩)
    · rw [if_neg h2]
      exact Or.inl ⟨_, rfl⟩
  · rw [if_neg h1]
    by_cases h2 : strategy = DISCOVERY_STRATEGY_CLASSIC
    · rw [if_pos h2]
      by_cases h3 : env.classicCtorOk = true
      · rw [if_pos h3]
        rcases reloadInstall_cases st env strategy with ⟨_, h⟩ | ⟨c, hc, h⟩
        · exact Or.inr (Or.inl h)
        · exact Or.inr (Or.inr ⟨c, hc, h⟩)
      · rw [if_neg h3]
        exact Or.inl ⟨_, rfl⟩
    · rw [if_neg h2]
      exact Or.inl ⟨_, rfl⟩

/-- Exhaustive description of what one `reload` call can do. -/
lemma reload_cases (st : DiscoveryState) (env : ReloadEnv) (b : Bool) :
    (∃ e, reload st env b = ⟨.err e, st, []⟩) ∨
    (reload st env b =
      ⟨.err "NewDiscovery", st, [ReloadEvent.cancelNew env.freshCancel]⟩) ∨
    (b = true ∧ reload st env b = ⟨.ok, st, []⟩) ∨
    (b = true ∧ env.supportDiscoveryStrategy = none ∧
      reload st env b = ⟨.nilDeref, st, []⟩) ∨
    (∃ tp c, env.tacticsFetch = .ok tp ∧ env.newDiscoveryResult = .ok c ∧
      reload st env b =
        ⟨.ok, ⟨computeStrategy tp, some c, some env.freshCancel⟩,
          installEvents st.cancelFunc⟩) := by
  cases hf : env.tacticsFetch with
  | error u =>
    exact Or.inl ⟨"ServerTacticsParametersCache.Get", by simp [reload, hf]⟩
  | ok tp =>
    have hcons :
        (∃ e, reloadConstruct st env (computeStrategy tp) = ⟨.err e, st, []⟩) ∨
        (reloadConstruct st env (computeStrategy tp) =
          ⟨.err "NewDiscovery", st, [ReloadEvent.cancelNew env.freshCancel]⟩) ∨
        (∃ c, env.newDiscoveryResult = .ok c ∧
          reloadConstruct st env (computeStrategy tp) =
            ⟨.ok, ⟨computeStrategy tp, some c, some env.freshCancel⟩,
              installEvents st.cancelFunc⟩) :=
      reloadConstruct_cases st env (computeStrategy tp)
    cases b with
    | false =>
      have hred : reload st env false = reloadConstruct st env (computeStrategy tp) := by
        simp [reload, hf]
      rw [hred]
      rcases hcons with ⟨e, h⟩ | h | ⟨c, hc, h⟩
      · exact Or.inl ⟨e, h⟩
      · exact Or.inr (Or.inl h)
      · exact Or.inr (Or.inr (Or.inr (Or.inr ⟨tp, c, rfl, hc, h⟩)))
    | true =>
      cases hs : env.supportDiscoveryStrategy with
      | none =>
        have hred : reload st env true = ⟨.nilDeref, st, []⟩ := by
          simp [reload, hf, hs]
        exact Or.inr (Or.inr (Or.inr (Or.inl ⟨rfl, rfl, hred⟩)))
      | some s =>
        by_cases hss : s = computeStrategy tp
        · have hred : reload st env true = ⟨.ok, st, []⟩ := by
            simp [reload, hf, hs, hss]
          exact Or.inr (Or.inr (Or.inl ⟨rfl, hred⟩))
        · have hred :
              reload st env true = reloadConstruct st env (computeStrategy tp) := by
            simp [reload, hf, hs, hss]
          rw [hred]
          rcases hcons with ⟨e, h⟩ | h | ⟨c, hc, h⟩
          · exact Or.inl ⟨e, h⟩
          · exact Or.inr (Or.inl h)
          · exact Or.inr (Or.inr (Or.inr (Or.inr ⟨tp, c, rfl, hc, h⟩)))

lemma reload_eq_construct (st : DiscoveryState) (env : ReloadEnv) (b : Bool)
    (tp : Option String) (htp : env.tacticsFetch = Except.ok tp)
    (hb : b = true →
      ∃ s, env.supportDiscoveryStrategy = some s ∧ s ≠ computeStrategy tp) :
    reload st env b = reloadConstruct st env (computeStrategy tp) := by
  cases b with
  | false => simp [reload, htp]
  | true =>
    rcases hb rfl with ⟨s, hs, hne⟩
    simp [reload, htp, hs, hne]

lemma reload_shortcircuit (st : DiscoveryState) (env : ReloadEnv)
    (tp : Option String) (htp : env.tacticsFetch = Except.ok tp)
    (hs : env.supportDiscoveryStrategy = some (computeStrategy tp)) :
    reload st env true = ⟨.ok, st, []⟩ := by
  simp [reload, htp, hs]

lemma reload_support_nil (st : DiscoveryState) (env : ReloadEnv)
    (tp : Option String) (htp : env.tacticsFetch = Except.ok tp)
    (hs : env.supportDiscoveryStrategy = none) :
    reload st env true = ⟨.nilDeref, st, []⟩ := by
  simp [reload, htp, hs]

lemma reloadConstruct_classic (st : DiscoveryState) (env : ReloadEnv) :
    reloadConstruct st env DISCOVERY_STRATEGY_CLASSIC =
      if env.classicCtorOk then reloadInstall st env DISCOVERY_STRATEGY_CLASSIC
      else ⟨.err "NewClassicDiscovery", st, []⟩ := by
  unfold reloadConstruct
  rw [if_neg (by decide), if_pos rfl]

lemma reloadConstruct_consistent (st : DiscoveryState) (env : ReloadEnv) :
    reloadConstruct st env DISCOVERY_STRATEGY_CONSISTENT =
      if env.consistentCtorOk then
        reloadInstall st env DISCOVERY_STRATEGY_CONSISTENT
      else ⟨.err "NewConsistentHashingDiscovery", st, []⟩ := by
  unfold reloadConstruct
  rw [if_pos rfl]

lemma reloadConstruct_unknown (st : DiscoveryState) (env : ReloadEnv)
    (strategy : String) (h1 : strategy ≠ DISCOVERY_STRATEGY_CONSISTENT)
    (h2 : strategy ≠ DISCOVERY_STRATEGY_CLASSIC) :
    reloadConstruct st env strategy =
      ⟨.err ("unknown strategy " ++ strategy), st, []⟩ := by
  unfold reloadConstruct
  rw [if_neg h1, if_neg h2]

lemma reloadInstall_ok_iff (st : DiscoveryState) (env : ReloadEnv)
    (strategy : String) :
    (reloadInstall st env strategy).outcome = ReloadOutcome.ok ↔
      ∃ c, env.newDiscoveryResult = Except.ok c := by
  unfold reloadInstall
  cases h : env.newDiscoveryResult with
  | error u => simp
  | ok c => simp

/-! ## Claim theorems -/

/-- C6: For every client IP, `DiscoverServers` returns exactly the
`EncodedServerEntry` fields of the servers returned by the active component's
`SelectServers` for that IP, in the same order and with the same length; when
`SelectServers` returns no servers the result is the empty slice (the
function always returns a slice, never an error). -/
theorem DiscoverServers_encodes_selected (select : Nat → List ServerEntry)
    (clientIP : Nat) :
    DiscoverServers select clientIP
        = (select clientIP).map (fun s => s.EncodedServerEntry) ∧
    (DiscoverServers select clientIP).length = (select clientIP).length ∧
    (select clientIP = [] → DiscoverServers select clientIP = []) := by
  have hmap : DiscoverServers select clientIP
      = (select clientIP).map (fun s => s.EncodedServerEntry) := by
    unfold DiscoverServers
    simpa using foldl_append_encoded (select clientIP) []
  refine ⟨hmap, ?_, ?_⟩
  · rw [hmap]
    exact List.length_map _ _
  · intro h
    rw [hmap, h]
    rfl

/-- Witness for C6 at a concrete selector. -/
theorem DiscoverServers_encodes_selected_witness :
    DiscoverServers (fun _ => [⟨"sA"⟩, ⟨"sB"⟩]) 3 = ["sA", "sB"] ∧
    DiscoverServers (fun _ => ([] : List ServerEntry)) 3 = [] := by
  have h1 := DiscoverServers_encodes_selected (fun _ => [⟨"sA"⟩, ⟨"sB"⟩]) 3
  have h2 := DiscoverServers_encodes_selected (fun _ => ([] : List ServerEntry)) 3
  exact ⟨by rw [h1.1]; rfl, h2.2.2 rfl⟩

/-- C10: `DiscoverServers` is read-only with respect to the orchestrator
state: the strategy name, the component reference and the cancellation handle
after the call are the ones from before the call. -/
theorem DiscoverServers_readonly (st : DiscoveryState)
    (beh : Nat → Nat → List ServerEntry) (clientIP : Nat) :
    (DiscoverServersRun st beh clientIP).2 = st := by
  unfold DiscoverServersRun
  cases st.discovery <;> rfl

/-- C2: every error return of `reload` leaves the orchestrator state — the
active component, the current strategy name and the stored cancellation
handle — unchanged, and never invokes the stored cancellation handle. -/
theorem reload_error_frame (st : DiscoveryState) (env : ReloadEnv) (b : Bool)
    (e : String) (h : (reload st env b).outcome = ReloadOutcome.err e) :
    (reload st env b).state = st ∧
    countCancelPrev (reload st env b).events = 0 := by
  rcases reload_cases st env b with
    ⟨e2, hr⟩ | hr | ⟨hb, hr⟩ | ⟨hb, hs, hr⟩ | ⟨tp, c, htp, hc, hr⟩
  · rw [hr]
    exact ⟨rfl, rfl⟩
  · rw [hr]
    exact ⟨rfl, rfl⟩
  · rw [hr] at h
    exact absurd h (by simp)
  · rw [hr] at h
    exact absurd h (by simp)
  · rw [hr] at h
    exact absurd h (by simp)

/-- Witness for C2: a concrete tactics-fetch failure. -/
theorem reload_error_frame_witness :
    (reload ⟨"classic", some 1, some 1⟩
        ⟨Except.error (), some "classic", true, true, Except.ok 2, 2⟩
        false).state = ⟨"classic", some 1, some 1⟩ ∧
    countCancelPrev (reload ⟨"classic", some 1, some 1⟩
        ⟨Except.error (), some "classic", true, true, Except.ok 2, 2⟩
        false).events = 0 := by
  exact reload_error_frame ⟨"classic", some 1, some 1⟩
    ⟨Except.error (), some "classic", true, true, Except.ok 2, 2⟩
    false "ServerTacticsParametersCache.Get" rfl

/-- C1 counterexample: a successful, non-short-circuited reload (previous
handle `some 1` present, outcome ok, nonempty trace) in which the previous
cancellation handle is invoked while the write lock is held — refuting the
claim that it is invoked only after the write lock has been released and
never while the lock is held. -/
theorem reload_cancel_in_lock_counterexample :
    (reload ⟨"classic", some 1, some 1⟩
        ⟨Except.ok (some "consistent"), some "classic", true, true,
          Except.ok 2, 2⟩ false).outcome = ReloadOutcome.ok ∧
    (reload ⟨"classic", some 1, some 1⟩
        ⟨Except.ok (some "consistent"), some "classic", true, true,
          Except.ok 2, 2⟩ false).events ≠ [] ∧
    ¬ (cancelPrevWhileLocked (reload ⟨"classic", some 1, some 1⟩
        ⟨Except.ok (some "consistent"), some "classic", true, true,
          Except.ok 2, 2⟩ false).events = false) := by
  refine ⟨rfl, by decide, by decide⟩

/-- C1 amended: in every successful non-short-circuited reload that
supersedes an instance, the previous cancellation handle is invoked exactly
once, and the invocation happens while the write lock is held — after the
lock is acquired and before the field swap and the lock release — not after
the lock is released. -/
theorem reload_cancel_under_lock (st : DiscoveryState) (env : ReloadEnv)
    (b : Bool) (h : Nat) (hprev : st.cancelFunc = some h)
    (hok : (reload st env b).outcome = ReloadOutcome.ok)
    (hne : (reload st env b).events ≠ []) :
    (reload st env b).events =
      [ReloadEvent.lockAcquire, ReloadEvent.cancelPrev h,
       ReloadEvent.fieldsWrite, ReloadEvent.lockRelease] ∧
    countCancelPrev (reload st env b).events = 1 ∧
    cancelPrevWhileLocked (reload st env b).events = true := by
  rcases reload_cases st env b with
    ⟨e, hr⟩ | hr | ⟨hb, hr⟩ | ⟨hb, hs, hr⟩ | ⟨tp, c, htp, hc, hr⟩
  · rw [hr] at hok
    exact absurd hok (by simp)
  · rw [hr] at hok
    exact absurd hok (by simp)
  · rw [hr] at hne
    exact absurd rfl hne
  · rw [hr] at hok
    exact absurd hok (by simp)
  · rw [hr]
    have hev : installEvents st.cancelFunc =
        [ReloadEvent.lockAcquire, ReloadEvent.cancelPrev h,
         ReloadEvent.fieldsWrite, ReloadEvent.lockRelease] := by
      rw [hprev]
      rfl
    refine ⟨hev, ?_, ?_⟩
    · rw [hev]
      rfl
    · rw [hev]
      rfl

/-- Witness for the amended C1 at a concrete successful reload. -/
theorem reload_cancel_under_lock_witness :
    (reload ⟨"consistent", some 4, some 4⟩
        ⟨Except.ok (some "classic"), some "consistent", true, true,
          Except.ok 5, 6⟩ true).events =
      [ReloadEvent.lockAcquire, ReloadEvent.cancelPrev 4,
       ReloadEvent.fieldsWrite, ReloadEvent.lockRelease] ∧
    countCancelPrev (reload ⟨"consistent", some 4, some 4⟩
        ⟨Except.ok (some "classic"), some "consistent", true, true,
          Except.ok 5, 6⟩ true).events = 1 ∧
    cancelPrevWhileLocked (reload ⟨"consistent", some 4, some 4⟩
        ⟨Except.ok (some "classic"), some "consistent", true, true,
          Except.ok 5, 6⟩ true).events = true := by
  exact reload_cancel_under_lock ⟨"consistent", some 4, some 4⟩
    ⟨Except.ok (some "classic"), some "consistent", true, true,
      Except.ok 5, 6⟩ true 4 rfl rfl (by decide)

/-- C4: when the tactics source yields nil parameters or an empty strategy
name, the target strategy is classic: a successful reload records "classic"
as the current strategy name, and outside the short-circuit case (which
requires the active strategy to already be classic) success is exactly
success of the classic-strategy construction plus the component
construction. -/
theorem reload_defaults_classic (st : DiscoveryState) (env : ReloadEnv)
    (b : Bool)
    (hfetch : env.tacticsFetch = Except.ok none ∨
      env.tacticsFetch = Except.ok (some ""))
    (hself : b = true → env.supportDiscoveryStrategy = some st.currentStrategy) :
    ((reload st env b).outcome = ReloadOutcome.ok →
      (reload st env b).state.currentStrategy = DISCOVERY_STRATEGY_CLASSIC) ∧
    (¬ (b = true ∧ st.currentStrategy = DISCOVERY_STRATEGY_CLASSIC) →
      ((reload st env b).outcome = ReloadOutcome.ok ↔
        env.classicCtorOk = true ∧ ∃ c, env.newDiscoveryResult = Except.ok c)) := by
  obtain ⟨tp, htp, hcs⟩ : ∃ tp, env.tacticsFetch = Except.ok tp ∧
      computeStrategy tp = DISCOVERY_STRATEGY_CLASSIC := by
    rcases hfetch with h | h
    · exact ⟨none, h, rfl⟩
    · exact ⟨some "", h, rfl⟩
  by_cases hsc : b = true ∧ st.currentStrategy = DISCOVERY_STRATEGY_CLASSIC
  · obtain ⟨hb, hcur⟩ := hsc
    have hs : env.supportDiscoveryStrategy = some (computeStrategy tp) := by
      rw [hcs, ← hcur]
      exact hself hb
    subst hb
    rw [reload_shortcircuit st env tp htp hs]
    exact ⟨fun _ => hcur, fun hn => absurd ⟨rfl, hcur⟩ hn⟩
  · have hred : reload st env b = reloadConstruct st env (computeStrategy tp) := by
      apply reload_eq_construct st env b tp htp
      intro hb
      refine ⟨st.currentStrategy, hself hb, ?_⟩
      rw [hcs]
      intro hEq
      exact hsc ⟨hb, hEq⟩
    rw [hred, hcs, reloadConstruct_classic]
    by_cases hcl : env.classicCtorOk = true
    · rw [if_pos hcl]
      constructor
      · intro hok
        rcases reloadInstall_cases st env DISCOVERY_STRATEGY_CLASSIC with
          ⟨hnd, hri⟩ | ⟨c, hc, hri⟩
        · rw [hri] at hok
          exact absurd hok (by simp)
        · rw [hri]
      · intro _
        rw [reloadInstall_ok_iff]
        simp [hcl]
    · rw [if_neg hcl]
      constructor
      · intro hok
        exact absurd hok (by simp)
      · intro _
        simp [hcl]

/-- Witness for C4: nil tactics parameters while "consistent" is active; the
full reload lands on the classic strategy. -/
theorem reload_defaults_classic_witness :
    (reload ⟨"consistent", some 1, some 1⟩
        ⟨Except.ok none, some "consistent", true, true, Except.ok 2, 3⟩
        false).state.currentStrategy = DISCOVERY_STRATEGY_CLASSIC :=
  (reload_defaults_classic ⟨"consistent", some 1, some 1⟩
      ⟨Except.ok none, some "consistent", true, true, Except.ok 2, 3⟩
      false (Or.inl rfl) (fun h => Bool.noConfusion h)).1 rfl

/-- C5: a tactics-refresh reload whose target strategy equals the currently
active one is a pure no-op — success, state (component, handle, strategy
name) unchanged, empty trace (so nothing is canceled or rebuilt) — and a
second such call is again a no-op. -/
theorem reload_refresh_idempotent (st : DiscoveryState) (env env2 : ReloadEnv)
    (tp tp2 : Option String)
    (h1 : env.tacticsFetch = Except.ok tp)
    (hself1 : env.supportDiscoveryStrategy = some st.currentStrategy)
    (htgt1 : computeStrategy tp = st.currentStrategy)
    (h2 : env2.tacticsFetch = Except.ok tp2)
    (hself2 : env2.supportDiscoveryStrategy = some st.currentStrategy)
    (htgt2 : computeStrategy tp2 = st.currentStrategy) :
    reload st env true = ⟨ReloadOutcome.ok, st, []⟩ ∧
    reload (reload st env true).state env2 true = ⟨ReloadOutcome.ok, st, []⟩ := by
  have hA : reload st env true = ⟨ReloadOutcome.ok, st, []⟩ :=
    reload_shortcircuit st env tp h1 (by rw [htgt1]; exact hself1)
  refine ⟨hA, ?_⟩
  rw [hA]
  exact reload_shortcircuit st env2 tp2 h2 (by rw [htgt2]; exact hself2)

/-- Witness for C5: two consecutive refresh-only reloads with an unchanged
"classic" configuration. -/
theorem reload_refresh_idempotent_witness :
    reload ⟨"classic", some 7, some 7⟩
        ⟨Except.ok (some "classic"), some "classic", true, true,
          Except.ok 9, 9⟩ true =
      ⟨ReloadOutcome.ok, ⟨"classic", some 7, some 7⟩, []⟩ ∧
    reload (reload ⟨"classic", some 7, some 7⟩
        ⟨Except.ok (some "classic"), some "classic", true, true,
          Except.ok 9, 9⟩ true).state
        ⟨Except.ok none, some "classic", true, true, Except.ok 9, 9⟩ true =
      ⟨ReloadOutcome.ok, ⟨"classic", some 7, some 7⟩, []⟩ :=
  reload_refresh_idempotent ⟨"classic", some 7, some 7⟩
    ⟨Except.ok (some "classic"), some "classic", true, true, Except.ok 9, 9⟩
    ⟨Except.ok none, some "classic", true, true, Except.ok 9, 9⟩
    (some "classic") none rfl rfl rfl rfl rfl rfl

lemma computeStrategy_unknown_iff (tp : Option String) :
    (computeStrategy tp ≠ DISCOVERY_STRATEGY_CLASSIC ∧
      computeStrategy tp ≠ DISCOVERY_STRATEGY_CONSISTENT) ↔
      (tp.getD "" ≠ "" ∧ tp.getD "" ≠ DISCOVERY_STRATEGY_CLASSIC ∧
        tp.getD "" ≠ DISCOVERY_STRATEGY_CONSISTENT) := by
  unfold computeStrategy
  by_cases h : tp.getD "" = ""
  · rw [if_pos h]
    simp [h]
  · rw [if_neg h]
    simp [h]

lemma reloadConstruct_err_iff (st : DiscoveryState) (env : ReloadEnv)
    (strategy : String) :
    (∃ e, (reloadConstruct st env strategy).outcome = ReloadOutcome.err e) ↔
      (strategy ≠ DISCOVERY_STRATEGY_CLASSIC ∧
        strategy ≠ DISCOVERY_STRATEGY_CONSISTENT) ∨
      (strategy = DISCOVERY_STRATEGY_CONSISTENT ∧
        (env.consistentCtorOk = false ∨
          env.newDiscoveryResult = Except.error ())) ∨
      (strategy = DISCOVERY_STRATEGY_CLASSIC ∧
        (env.classicCtorOk = false ∨
          env.newDiscoveryResult = Except.error ())) := by
  by_cases h1 : strategy = DISCOVERY_STRATEGY_CONSISTENT
  · subst h1
    rw [reloadConstruct_consistent]
    by_cases h2 : env.consistentCtorOk = true
    · rw [if_pos h2]
      constructor
      · rintro ⟨e, he⟩
        rcases reloadInstall_cases st env DISCOVERY_STRATEGY_CONSISTENT with
          ⟨hnd, hri⟩ | ⟨c, hc, hri⟩
        · exact Or.inr (Or.inl ⟨rfl, Or.inr hnd⟩)
        · rw [hri] at he
          exact absurd he (by simp)
      · rintro (⟨hA, hB⟩ | ⟨hA, hB⟩ | ⟨hA, hB⟩)
        · exact absurd rfl hB
        · rcases hB with hc | hnd
          · exact absurd (h2.symm.trans hc) (by decide)
          · exact ⟨"NewDiscovery", by simp [reloadInstall, hnd]⟩
        · exact absurd hA (by decide)
    · rw [if_neg h2]
      constructor
      · intro _
        exact Or.inr (Or.inl ⟨rfl, Or.inl (Bool.not_eq_true _ ▸ h2)⟩)
      · intro _
        exact ⟨"NewConsistentHashingDiscovery", rfl⟩
  · by_cases h2 : strategy = DISCOVERY_STRATEGY_CLASSIC
    · subst h2
      rw [reloadConstruct_classic]
      by_cases h3 : env.classicCtorOk = true
      · rw [if_pos h3]
        constructor
        · rintro ⟨e, he⟩
          rcases reloadInstall_cases st env DISCOVERY_STRATEGY_CLASSIC with
            ⟨hnd, hri⟩ | ⟨c, hc, hri⟩
          · exact Or.inr (Or.inr ⟨rfl, Or.inr hnd⟩)
          · rw [hri] at he
            exact absurd he (by simp)
        · rintro (⟨hA, hB⟩ | ⟨hA, hB⟩ | ⟨hA, hB⟩)
          · exact absurd rfl hA
          · exact absurd hA (by decide)
          · rcases hB with hc | hnd
            · exact absurd (h3.symm.trans hc) (by decide)
            · exact ⟨"NewDiscovery", by simp [reloadInstall, hnd]⟩
      · rw [if_neg h3]
        constructor
        · intro _
          exact Or.inr (Or.inr ⟨rfl, Or.inl (Bool.not_eq_true _ ▸ h3)⟩)
        · intro _
          exact ⟨"NewClassicDiscovery", rfl⟩
    · rw [reloadConstruct_unknown st env strategy h1 h2]
      constructor
      · intro _
        exact Or.inl ⟨h2, h1⟩
      · intro _
        exact ⟨"unknown strategy " ++ strategy, rfl⟩

/-- C3: `reload` returns an error exactly when the tactics fetch fails, the
fetched strategy name is non-empty and neither "classic" nor "consistent"
(in which case the error is the unknown-strategy configuration error), or
the construction of the selected strategy or of the underlying discovery
component fails — provided `d.support.discovery` is non-nil when it is
dereferenced and the call is not short-circuited. -/
theorem reload_error_characterization (st : DiscoveryState) (env : ReloadEnv)
    (b : Bool)
    (hnn : b = true → env.supportDiscoveryStrategy ≠ none)
    (hsc : ∀ tp, env.tacticsFetch = Except.ok tp →
      ¬ (b = true ∧ env.supportDiscoveryStrategy = some (computeStrategy tp))) :
    (∃ e, (reload st env b).outcome = ReloadOutcome.err e) ↔
      (env.tacticsFetch = Except.error ()) ∨
      (∃ tp, env.tacticsFetch = Except.ok tp ∧ tp.getD "" ≠ "" ∧
        tp.getD "" ≠ DISCOVERY_STRATEGY_CLASSIC ∧
        tp.getD "" ≠ DISCOVERY_STRATEGY_CONSISTENT) ∨
      (∃ tp, env.tacticsFetch = Except.ok tp ∧
        ((computeStrategy tp = DISCOVERY_STRATEGY_CONSISTENT ∧
            (env.consistentCtorOk = false ∨
              env.newDiscoveryResult = Except.error ())) ∨
         (computeStrategy tp = DISCOVERY_STRATEGY_CLASSIC ∧
            (env.classicCtorOk = false ∨
              env.newDiscoveryResult = Except.error ())))) := by
  cases hf : env.tacticsFetch with
  | error u =>
    cases u
    constructor
    · intro _
      exact Or.inl rfl
    · intro _
      exact ⟨"ServerTacticsParametersCache.Get", by simp [reload, hf]⟩
  | ok tp =>
    have hred : reload st env b = reloadConstruct st env (computeStrategy tp) := by
      apply reload_eq_construct st env b tp hf
      intro hb
      cases hs : env.supportDiscoveryStrategy with
      | none => exact absurd hs (hnn hb)
      | some s =>
        refine ⟨s, rfl, ?_⟩
        intro hEq
        exact hsc tp hf ⟨hb, by rw [hs, hEq]⟩
    rw [hred, reloadConstruct_err_iff]
    constructor
    · rintro (hu | hc | hc)
      · exact Or.inr (Or.inl ⟨tp, rfl, (computeStrategy_unknown_iff tp).mp hu⟩)
      · exact Or.inr (Or.inr ⟨tp, rfl, Or.inl hc⟩)
      · exact Or.inr (Or.inr ⟨tp, rfl, Or.inr hc⟩)
    · rintro (hferr | ⟨tp2, htp2, hraw⟩ | ⟨tp2, htp2, hctor⟩)
      · exact Except.noConfusion hferr
      · injection htp2 with hEq
        subst hEq
        exact Or.inl ((computeStrategy_unknown_iff tp).mpr hraw)
      · injection htp2 with hEq
        subst hEq
        exact Or.inr hctor

/-- Witness for C3: an unrecognized strategy name "zigzag" during a
tactics-refresh reload yields an error. -/
theorem reload_error_characterization_witness :
    ∃ e, (reload ⟨"classic", some 1, some 1⟩
        ⟨Except.ok (some "zigzag"), some "classic", true, true,
          Except.ok 2, 2⟩ true).outcome = ReloadOutcome.err e := by
  apply (reload_error_characterization ⟨"classic", some 1, some 1⟩
      ⟨Except.ok (some "zigzag"), some "classic", true, true, Except.ok 2, 2⟩
      true
      (fun _ h => Option.noConfusion h)
      (by
        rintro tp htp ⟨hb, hsupp⟩
        injection htp with hEq
        subst hEq
        exact absurd hsupp (by decide))).mpr
  exact Or.inr (Or.inl ⟨some "zigzag", rfl, by decide, by decide, by decide⟩)

/-- C8: the short-circuit test of a tactics-refresh reload reads the
strategy name through `d.support.discovery`, not the receiver's own field:
with a nil `d.support.discovery` the call dereferences nil (and only a
`reloadedTactics=true` call can do so); and the short-circuit decision
diverges from the receiver's own state when `d.support.discovery` is not the
receiver — a matching receiver strategy is rebuilt anyway, and a
non-matching receiver strategy can be short-circuited. -/
theorem reload_support_reference :
    (∀ (st : DiscoveryState) (env : ReloadEnv) (tp : Option String),
        env.tacticsFetch = Except.ok tp →
        env.supportDiscoveryStrategy = none →
        (reload st env true).outcome = ReloadOutcome.nilDeref) ∧
    (∀ (st : DiscoveryState) (env : ReloadEnv) (b : Bool),
        env.supportDiscoveryStrategy ≠ none →
        (reload st env b).outcome ≠ ReloadOutcome.nilDeref) ∧
    (∀ (st : DiscoveryState) (env : ReloadEnv),
        (reload st env false).outcome ≠ ReloadOutcome.nilDeref) ∧
    ((reload ⟨"classic", some 1, some 1⟩
        ⟨Except.ok (some "classic"), some "consistent", true, true,
          Except.ok 2, 2⟩ true).outcome = ReloadOutcome.ok ∧
      (reload ⟨"classic", some 1, some 1⟩
        ⟨Except.ok (some "classic"), some "consistent", true, true,
          Except.ok 2, 2⟩ true).state ≠ ⟨"classic", some 1, some 1⟩) ∧
    (reload ⟨"consistent", some 1, some 1⟩
        ⟨Except.ok (some "classic"), some "classic", true, true,
          Except.ok 2, 2⟩ true =
      ⟨ReloadOutcome.ok, ⟨"consistent", some 1, some 1⟩, []⟩) := by
  refine ⟨?_, ?_, ?_, ⟨by decide, by decide⟩, by decide⟩
  · intro st env tp htp hs
    rw [reload_support_nil st env tp htp hs]
  · intro st env b hne heq
    rcases reload_cases st env b with
      ⟨e, hr⟩ | hr | ⟨hb, hr⟩ | ⟨hb, hs, hr⟩ | ⟨tp, c, htp, hc, hr⟩
    · rw [hr] at heq
      exact ReloadOutcome.noConfusion heq
    · rw [hr] at heq
      exact ReloadOutcome.noConfusion heq
    · rw [hr] at heq
      exact ReloadOutcome.noConfusion heq
    · exact hne hs
    · rw [hr] at heq
      exact ReloadOutcome.noConfusion heq
  · intro st env heq
    rcases reload_cases st env false with
      ⟨e, hr⟩ | hr | ⟨hb, hr⟩ | ⟨hb, hs, hr⟩ | ⟨tp, c, htp, hc, hr⟩
    · rw [hr] at heq
      exact ReloadOutcome.noConfusion heq
    · rw [hr] at heq
      exact ReloadOutcome.noConfusion heq
    · exact Bool.noConfusion hb
    · exact Bool.noConfusion hb
    · rw [hr] at heq
      exact ReloadOutcome.noConfusion heq

/-- Witness for C8 at concrete inputs: nil support panics under
`reloadedTactics=true`, non-nil support never does, `reloadedTactics=false`
never dereferences. -/
theorem reload_support_reference_witness :
    (reload ⟨"a", none, none⟩
        ⟨Except.ok (some "classic"), none, true, true, Except.ok 2, 2⟩
        true).outcome = ReloadOutcome.nilDeref ∧
    (reload ⟨"a", none, none⟩
        ⟨Except.ok (some "classic"), some "x", true, true, Except.ok 2, 2⟩
        true).outcome ≠ ReloadOutcome.nilDeref ∧
    (reload ⟨"a", none, none⟩
        ⟨Except.ok (some "classic"), none, true, true, Except.ok 2, 2⟩
        false).outcome ≠ ReloadOutcome.nilDeref :=
  ⟨reload_support_reference.1 ⟨"a", none, none⟩
      ⟨Except.ok (some "classic"), none, true, true, Except.ok 2, 2⟩
      (some "classic") rfl rfl,
    reload_support_reference.2.1 ⟨"a", none, none⟩
      ⟨Except.ok (some "classic"), some "x", true, true, Except.ok 2, 2⟩
      true (fun h => Option.noConfusion h),
    reload_support_reference.2.2.1 ⟨"a", none, none⟩
      ⟨Except.ok (some "classic"), none, true, true, Except.ok 2, 2⟩⟩

/-- C9: a successful `newDiscovery` yields a non-nil component and a non-nil
cancellation handle; every `reload` preserves their non-nilness (errors
leave them untouched, a successful installation stores fresh non-nil
values); and `DiscoverServers` run on a state with a non-nil component never
dereferences nil. -/
theorem discovery_component_nonnil :
    (∀ (env : ReloadEnv) (st : DiscoveryState), newDiscovery env = some st →
        st.discovery ≠ none ∧ st.cancelFunc ≠ none) ∧
    (∀ (st : DiscoveryState) (env : ReloadEnv) (b : Bool),
        st.discovery ≠ none → st.cancelFunc ≠ none →
        (reload st env b).state.discovery ≠ none ∧
        (reload st env b).state.cancelFunc ≠ none) ∧
    (∀ (st : DiscoveryState) (env : ReloadEnv) (b : Bool),
        (reload st env b).outcome = ReloadOutcome.ok →
        (reload st env b).events ≠ [] →
        (reload st env b).state.cancelFunc = some env.freshCancel ∧
        ∃ c, env.newDiscoveryResult = Except.ok c ∧
          (reload st env b).state.discovery = some c) ∧
    (∀ (st : DiscoveryState) (beh : Nat → Nat → List ServerEntry) (ip : Nat),
        st.discovery ≠ none → (DiscoverServersRun st beh ip).1 ≠ none) := by
  refine ⟨?_, ?_, ?_, ?_⟩
  · intro env st h
    unfold newDiscovery at h
    rcases reload_cases ⟨"", none, none⟩ env false with
      ⟨e, hr⟩ | hr | ⟨hb, hr⟩ | ⟨hb, hs, hr⟩ | ⟨tp, c, htp, hc, hr⟩
    · rw [hr] at h
      exact Option.noConfusion h
    · rw [hr] at h
      exact Option.noConfusion h
    · exact Bool.noConfusion hb
    · exact Bool.noConfusion hb
    · rw [hr] at h
      injection h with hEq
      rw [← hEq]
      exact ⟨fun hx => Option.noConfusion hx, fun hx => Option.noConfusion hx⟩
  · intro st env b hd hc
    rcases reload_cases st env b with
      ⟨e, hr⟩ | hr | ⟨hb, hr⟩ | ⟨hb, hs, hr⟩ | ⟨tp, c, htp, hc2, hr⟩
    · rw [hr]
      exact ⟨hd, hc⟩
    · rw [hr]
      exact ⟨hd, hc⟩
    · rw [hr]
      exact ⟨hd, hc⟩
    · rw [hr]
      exact ⟨hd, hc⟩
    · rw [hr]
      exact ⟨fun hx => Option.noConfusion hx, fun hx => Option.noConfusion hx⟩
  · intro st env b hok hne
    rcases reload_cases st env b with
      ⟨e, hr⟩ | hr | ⟨hb, hr⟩ | ⟨hb, hs, hr⟩ | ⟨tp, c, htp, hc, hr⟩
    · rw [hr] at hok
      exact absurd hok (by simp)
    · rw [hr] at hok
      exact absurd hok (by simp)
    · rw [hr] at hne
      exact absurd rfl hne
    · rw [hr] at hok
      exact absurd hok (by simp)
    · rw [hr]
      exact ⟨rfl, c, hc, rfl⟩
  · intro st beh ip hd
    cases hst : st.discovery with
    | none => exact absurd hst hd
    | some c => simp [DiscoverServersRun, hst]

/-- Witness for C9: a concrete successful `newDiscovery` and a concrete
query state. -/
theorem discovery_component_nonnil_witness :
    ((⟨"classic", some 0, some 1⟩ : DiscoveryState).discovery ≠ none ∧
      (⟨"classic", some 0, some 1⟩ : DiscoveryState).cancelFunc ≠ none) ∧
    (DiscoverServersRun ⟨"classic", some 0, some 1⟩ (fun _ _ => []) 5).1
      ≠ none :=
  ⟨discovery_component_nonnil.1
      ⟨Except.ok none, none, true, true, Except.ok 0, 1⟩
      ⟨"classic", some 0, some 1⟩ (by decide),
    discovery_component_nonnil.2.2.2 ⟨"classic", some 0, some 1⟩
      (fun _ _ => []) 5 (fun h => Option.noConfusion h)⟩

/-- C7: with the write lock held for the whole swap (every field write lies
strictly inside the writer's critical section) and the reader's read-locked
section disjoint from it (RWMutex exclusion), a reader observing the three
fields at any times within its own section sees either the complete
pre-reload state or the complete post-reload state, never a mixture. -/
theorem reader_sees_atomic_swap (st : DiscoveryState) (env : ReloadEnv)
    (b : Bool) (wl wu twD twC twS rl ru t1 t2 t3 : Nat)
    (hwD : wl < twD ∧ twD < wu) (hwC : wl < twC ∧ twC < wu)
    (hwS : wl < twS ∧ twS < wu)
    (ht1 : rl ≤ t1 ∧ t1 ≤ ru) (ht2 : rl ≤ t2 ∧ t2 ≤ ru)
    (ht3 : rl ≤ t3 ∧ t3 ≤ ru)
    (hdisj : ru < wl ∨ wu < rl) :
    readerTriple st (reload st env b).state twD twC twS t1 t2 t3 =
      stateTriple st ∨
    readerTriple st (reload st env b).state twD twC twS t1 t2 t3 =
      stateTriple ((reload st env b).state) := by
  rcases hdisj with hlt | hgt
  · left
    unfold readerTriple stateTriple observedField
    rw [if_pos (by omega), if_pos (by omega), if_pos (by omega)]
  · right
    unfold readerTriple stateTriple observedField
    rw [if_neg (by omega), if_neg (by omega), if_neg (by omega)]

/-- Witness for C7: a concrete reader section entirely before a concrete
writer section, around a concrete reload. -/
theorem reader_sees_atomic_swap_witness :
    readerTriple ⟨"classic", some 1, some 1⟩
        (reload ⟨"classic", some 1, some 1⟩
          ⟨Except.ok (some "consistent"), some "classic", true, true,
            Except.ok 2, 2⟩ false).state 11 12 13 1 2 3 =
      stateTriple ⟨"classic", some 1, some 1⟩ ∨
    readerTriple ⟨"classic", some 1, some 1⟩
        (reload ⟨"classic", some 1, some 1⟩
          ⟨Except.ok (some "consistent"), some "classic", true, true,
            Except.ok 2, 2⟩ false).state 11 12 13 1 2 3 =
      stateTriple ((reload ⟨"classic", some 1, some 1⟩
          ⟨Except.ok (some "consistent"), some "classic", true, true,
            Except.ok 2, 2⟩ false).state) :=
  reader_sees_atomic_swap ⟨"classic", some 1, some 1⟩
    ⟨Except.ok (some "consistent"), some "classic", true, true,
      Except.ok 2, 2⟩ false 10 20 11 12 13 0 5 1 2 3
    (by decide) (by decide) (by decide) (by decide) (by decide) (by decide)
    (Or.inl (by decide))

end PsiphonDiscovery
